import Mathlib

/-!
Shallow embedding of the pypesa M-Pesa client (src/pypesa/__init__.py).

The client talks to three external facilities, modelled as oracles in a
`World`:
  * the current working directory (its listing, and the result of opening
    and JSON-parsing a file) — used by `Mpesa.authenticated` / `__load_keys`;
  * RSA/base64 encryption (`base64.b64decode` + `RSA.importKey` +
    `PKCS1_v1_5.encrypt` + `base64.b64encode`), collapsed into one function
    `encrypt pub raw : Option String` where `none` stands for any exception
    thrown on that path;
  * HTTP (`requests.get` / `requests.post`), a function from a request to a
    response, where the response is either a parsed JSON body, a JSON-parse
    failure of `.json()`, or a network-level failure
    (`requests.ConnectTimeout` / `requests.ConnectionError`).

Python dicts appearing in the API (the key store, transaction queries,
response bodies, headers) are modelled as association lists
`List (String × String)`; a key is present when `List.lookup` finds it.

Each method is a function from the client state and the world to
`(result, new state, list of HTTP requests issued)`; `result` is
`Except MpesaErr α`, with one constructor per exception the source can
raise. Methods that never assign to `self` return the state unchanged.
-/

/-- HTTP request method. -/
inductive Method
  | get
  | post
deriving DecidableEq, Repr

/-- An outbound HTTP request as issued by `requests.get` / `requests.post`:
method, URL, headers, optional JSON body (the `json=` argument) and the TLS
`verify` flag. -/
structure HttpReq where
  method : Method
  url : String
  headers : List (String × String)
  body : Option (List (String × String))
  tlsVerify : Bool
deriving DecidableEq, Repr

/-- Outcome of an HTTP call followed by `.json()`: a parsed JSON body, a
parse failure raised by `.json()`, or a network-level failure
(`requests.ConnectTimeout` / `requests.ConnectionError`). -/
inductive HttpResp
  | json (body : List (String × String))
  | parseFail
  | netFail
deriving DecidableEq, Repr

/-- Outcome of opening a file and `json.load`-ing it: the file is missing
(`FileNotFoundError` from `open`), unreadable or unparsable (any other
exception), or parses to a JSON object. -/
inductive FileRead
  | missing
  | unreadable
  | content (entries : List (String × String))
deriving DecidableEq, Repr

/-- The external world the client runs in: the cwd listing (`os.listdir()`),
the filesystem, the RSA/base64 encryption pipeline (with `none` standing for
any exception it throws) and the HTTP transport. -/
structure World where
  listing : List String
  fs : String → FileRead
  encrypt : String → String → Option String
  http : HttpReq → HttpResp

/-- One constructor per exception the source raises: `AuthenticationError`,
`LoadingKeyError`, the built-in `FileNotFoundError` raised by
`Mpesa.authenticated`, the `KeyError` raised by `Mpesa.verify_query` listing
the missing fields (the spec's `MissingFieldsError`), the library's
`ConnectionError`, the `TypeError` raised by the `origin_address` setter
(the spec's `InvalidArgument`), and a JSON-decode failure propagating out of
`.json()` on a transaction response. -/
inductive MpesaErr
  | authenticationError
  | loadingKeyError
  | fileNotFound (path : String)
  | missingFields (fields : List String)
  | connectionError
  | typeError (msg : String)
  | jsonDecodeError
deriving DecidableEq, Repr

/-- The six endpoint URLs one environment resolves to, with the field names
of the `service_urls` module. -/
structure URLSet where
  session_id : String
  single_stage_c2b : String
  single_stage_b2c : String
  single_stage_b2b : String
  payment_reversal : String
  transaction_status : String
deriving DecidableEq, Repr

/-- Modelled from the spec: the `service_urls` module (imported by the
source but not under src/) supplies a static URL table with two entries,
`service_urls.production` and `service_urls.sandbox`. -/
structure ServiceUrls where
  production : URLSet
  sandbox : URLSet
deriving DecidableEq, Repr

/-- The state of an `Mpesa` instance: `auth_path`, `auth_keys` (set by
`authenticated`), the private `__encrypted_api_key` (`none` models Python
`None`), the private `__origin_ip`, and `urls`. -/
structure Mpesa where
  auth_path : String
  auth_keys : List (String × String)
  encrypted_api_key : Option String
  origin_ip : String
  urls : URLSet
deriving DecidableEq, Repr

/-- Result of running a method: the returned value or raised exception, the
client state after the call, and the HTTP requests issued during it. -/
abbrev MRes (α : Type) := Except MpesaErr α × Mpesa × List HttpReq

/-- The header mapping literally built by `Mpesa.default_headers` from an
origin address and an auth key. -/
def headersFor (origin authKey : String) : List (String × String) :=
  [("Content-Type", "application/json"),
   ("Authorization", "Bearer " ++ authKey),
   ("Host", "openapi.m-pesa.com"),
   ("Origin", origin)]

/-- The GET request `get_session_id` issues when the stored encrypted API
key is `k`. -/
def sessionReq (c : Mpesa) (k : String) : HttpReq :=
  { method := .get, url := c.urls.session_id,
    headers := headersFor c.origin_ip k, body := none, tlsVerify := true }

/-- The POST request a dispatcher issues: query as JSON body, `verify=True`. -/
def postReq (url : String) (hs q : List (String × String)) : HttpReq :=
  { method := .post, url := url, headers := hs, body := some q, tlsVerify := true }

/-- `Mpesa.get_session_id`: builds headers from the stored encrypted API
key, GETs the session endpoint, and reads `output_SessionID`,
`output_ResponseCode`, `output_ResponseDesc` from the parsed body; the
code `INS-989`, as well as any exception on the way (network failure,
`.json()` failure, a missing field's `KeyError`), becomes
`AuthenticationError`.

When the stored key is `None` or `""`, the Python source recurses through
`default_headers` → `__generate_encrypted_key(session=True)` →
`get_session_id` without ever reaching `requests.get`, until the interpreter
raises `RecursionError`, which the blanket `except Exception` turns into
`AuthenticationError`; that path is collapsed here into an immediate
`AuthenticationError` with no request issued. -/
def Mpesa.get_session_id (c : Mpesa) (w : World) : MRes String :=
  match c.encrypted_api_key with
  | none => (.error .authenticationError, c, [])
  | some k =>
    if k = "" then (.error .authenticationError, c, [])
    else
      match w.http (sessionReq c k) with
      | .netFail => (.error .authenticationError, c, [sessionReq c k])
      | .parseFail => (.error .authenticationError, c, [sessionReq c k])
      | .json body =>
        match body.lookup "output_SessionID" with
        | none => (.error .authenticationError, c, [sessionReq c k])
        | some sid =>
          match body.lookup "output_ResponseCode" with
          | none => (.error .authenticationError, c, [sessionReq c k])
          | some code =>
            match body.lookup "output_ResponseDesc" with
            | none => (.error .authenticationError, c, [sessionReq c k])
            | some _ =>
              if code = "INS-989" then (.error .authenticationError, c, [sessionReq c k])
              else (.ok sid, c, [sessionReq c k])

/-- `Mpesa.__generate_encrypted_key`: reads `public_key` and `api_key` from
`auth_keys` (a missing key's `KeyError` is caught and becomes
`AuthenticationError`), replaces the raw key by a fresh session id when
`session=True`, and runs the encryption pipeline; any exception on the way
becomes `AuthenticationError`. -/
def Mpesa.generate_encrypted_key (c : Mpesa) (w : World) (session : Bool) : MRes String :=
  match c.auth_keys.lookup "public_key" with
  | none => (.error .authenticationError, c, [])
  | some pub =>
    match c.auth_keys.lookup "api_key" with
    | none => (.error .authenticationError, c, [])
    | some raw =>
      if session then
        match c.get_session_id w with
        | (.ok sid, c1, t) =>
          (match w.encrypt pub sid with
           | some ek => (.ok ek, c1, t)
           | none => (.error .authenticationError, c1, t))
        | (.error _, c1, t) => (.error .authenticationError, c1, t)
      else
        match w.encrypt pub raw with
        | some ek => (.ok ek, c, [])
        | none => (.error .authenticationError, c, [])

/-- Python truthiness of the `auth_key` argument of `default_headers`:
`None` and `""` are falsy. -/
def authKeyTruthy : Option String → Bool
  | none => false
  | some s => !(s == "")

/-- `Mpesa.default_headers`: when the supplied auth key is falsy, obtain one
by encrypting a fresh session id (`__generate_encrypted_key(session=True)`),
then return the four-header mapping. -/
def Mpesa.default_headers (c : Mpesa) (w : World) (auth_key : Option String) :
    MRes (List (String × String)) :=
  if authKeyTruthy auth_key then
    (.ok (headersFor c.origin_ip (auth_key.getD "")), c, [])
  else
    match c.generate_encrypted_key w true with
    | (.ok k, c1, t) => (.ok (headersFor c1.origin_ip k), c1, t)
    | (.error e, c1, t) => (.error e, c1, t)

/-- The set difference `required_fields.difference(query_keys)` computed by
`Mpesa.verify_query`. -/
def missingOf (required : List String) (q : List (String × String)) : List String :=
  required.filter (fun f => (q.lookup f).isNone)

/-- `Mpesa.verify_query` (a staticmethod): raises `KeyError` naming the
missing keys when any required field is absent from the query, else returns
`True`. -/
def Mpesa.verify_query (q : List (String × String)) (required : List String) :
    Except MpesaErr Bool :=
  let missing := missingOf required q
  if missing = [] then .ok true
  else .error (.missingFields missing)

/-- The shared body of the five transaction dispatchers: validate the query
against the required fields (a raised `KeyError` propagates before any
request), then POST the query as the JSON body to the endpoint with
session-authenticated default headers and `verify=True`, returning the
parsed response body; `ConnectTimeout`/`ConnectionError` become
`ConnectionError`, other response-decoding failures propagate. -/
def Mpesa.dispatchPost (c : Mpesa) (w : World) (required : List String)
    (url : String) (q : List (String × String)) : MRes (List (String × String)) :=
  match Mpesa.verify_query q required with
  | .error e => (.error e, c, [])
  | .ok _ =>
    match c.default_headers w (some "") with
    | (.error e, c1, t) => (.error e, c1, t)
    | (.ok hs, c1, t) =>
      match w.http (postReq url hs q) with
      | .json body => (.ok body, c1, t ++ [postReq url hs q])
      | .parseFail => (.error .jsonDecodeError, c1, t ++ [postReq url hs q])
      | .netFail => (.error .connectionError, c1, t ++ [postReq url hs q])

/-- Required fields of `Mpesa.customer_to_bussiness`. -/
def c2b_required : List String :=
  ["input_Amount", "input_Country", "input_Currency", "input_CustomerMSISDN",
   "input_ServiceProviderCode", "input_ThirdPartyConversationID",
   "input_TransactionReference", "input_PurchasedItemsDesc"]

/-- Required fields of `Mpesa.bussiness_to_customer`. -/
def b2c_required : List String :=
  ["input_Amount", "input_Country", "input_Currency", "input_CustomerMSISDN",
   "input_ServiceProviderCode", "input_ThirdPartyConversationID",
   "input_TransactionReference", "input_PaymentItemsDesc"]

/-- Required fields of `Mpesa.bussiness_to_bussiness`. -/
def b2b_required : List String :=
  ["input_Amount", "input_Country", "input_Currency", "input_PrimaryPartyCode",
   "input_ReceiverPartyCode", "input_ThirdPartyConversationID",
   "input_TransactionReference", "input_PurchasedItemsDesc"]

/-- Required fields of `Mpesa.payment_reversal`. -/
def reversal_required : List String :=
  ["input_Country", "input_ReversalAmount", "input_ServiceProviderCode",
   "input_ThirdPartyConversationID", "input_TransactionID"]

/-- Required fields of `Mpesa.query_transaction_status`. -/
def status_required : List String :=
  ["input_Country", "input_QueryReference", "input_ServiceProviderCode",
   "input_ThirdPartyConversationID"]

/-- `Mpesa.customer_to_bussiness`. -/
def Mpesa.customer_to_bussiness (c : Mpesa) (w : World)
    (q : List (String × String)) : MRes (List (String × String)) :=
  c.dispatchPost w c2b_required c.urls.single_stage_c2b q

/-- `Mpesa.bussiness_to_customer`. -/
def Mpesa.bussiness_to_customer (c : Mpesa) (w : World)
    (q : List (String × String)) : MRes (List (String × String)) :=
  c.dispatchPost w b2c_required c.urls.single_stage_b2c q

/-- `Mpesa.bussiness_to_bussiness`. -/
def Mpesa.bussiness_to_bussiness (c : Mpesa) (w : World)
    (q : List (String × String)) : MRes (List (String × String)) :=
  c.dispatchPost w b2b_required c.urls.single_stage_b2b q

/-- `Mpesa.payment_reversal`. -/
def Mpesa.payment_reversal (c : Mpesa) (w : World)
    (q : List (String × String)) : MRes (List (String × String)) :=
  c.dispatchPost w reversal_required c.urls.payment_reversal q

/-- `Mpesa.query_transaction_status`. -/
def Mpesa.query_transaction_status (c : Mpesa) (w : World)
    (q : List (String × String)) : MRes (List (String × String)) :=
  c.dispatchPost w status_required c.urls.transaction_status q

/-- The five transaction kinds. -/
inductive TxKind
  | c2b
  | b2c
  | b2b
  | reversal
  | statusQuery
deriving DecidableEq, Repr

/-- The required-field list each kind's dispatcher validates against. -/
def requiredFields : TxKind → List String
  | .c2b => c2b_required
  | .b2c => b2c_required
  | .b2b => b2b_required
  | .reversal => reversal_required
  | .statusQuery => status_required

/-- The endpoint URL each kind's dispatcher posts to. -/
def endpointOf (c : Mpesa) : TxKind → String
  | .c2b => c.urls.single_stage_c2b
  | .b2c => c.urls.single_stage_b2c
  | .b2b => c.urls.single_stage_b2b
  | .reversal => c.urls.payment_reversal
  | .statusQuery => c.urls.transaction_status

/-- Dispatch a transaction of the given kind: the corresponding method of
the source. -/
def runTx (c : Mpesa) (w : World) : TxKind → List (String × String) →
    MRes (List (String × String))
  | .c2b, q => c.customer_to_bussiness w q
  | .b2c, q => c.bussiness_to_customer w q
  | .b2b, q => c.bussiness_to_bussiness w q
  | .reversal, q => c.payment_reversal w q
  | .statusQuery, q => c.query_transaction_status w q

/-- `Mpesa.__load_keys`: `open` + `json.load`; `FileNotFoundError` is
re-raised, any other exception becomes `LoadingKeyError`. -/
def load_keys (w : World) (keys_filename : String) :
    Except MpesaErr (List (String × String)) :=
  match w.fs keys_filename with
  | .content d => .ok d
  | .missing => .error (.fileNotFound keys_filename)
  | .unreadable => .error .loadingKeyError

/-- URL resolution of `Mpesa.__init__`: the production table when
`environment == "production"`, the sandbox table otherwise. -/
def resolveUrls (tables : ServiceUrls) (environment : String) : URLSet :=
  if environment = "production" then tables.production else tables.sandbox

/-- The field assignments at the top of `Mpesa.__init__`: `auth_path`,
`__encrypted_api_key = None`, `__origin_ip = "*"`, and `urls` resolved from
the environment. -/
def initClient (auth_path : String) (tables : ServiceUrls)
    (environment : String) : Mpesa :=
  { auth_path := auth_path, auth_keys := [], encrypted_api_key := none,
    origin_ip := "*", urls := resolveUrls tables environment }

/-- `Mpesa.__init__` composed with the `authenticated` property it runs
after the `initClient` assignments: if `auth_path` is a member of
`os.listdir()`, load the keys (a raised `FileNotFoundError` /
`LoadingKeyError` propagates), and if they are truthy (an empty dict is
falsy) encrypt the API key (a raised `AuthenticationError` propagates) and
store it; `authenticated` returning `False` (falsy keys or falsy encrypted
key, an empty string being falsy) makes `__init__` raise
`AuthenticationError`; `auth_path` not being in the listing raises
`FileNotFoundError`. -/
def mkMpesa (w : World) (tables : ServiceUrls) (auth_path : String)
    (environment : String) : Except MpesaErr Mpesa :=
  if auth_path ∈ w.listing then
    match load_keys w auth_path with
    | .error e => .error e
    | .ok keys =>
      if keys = [] then .error .authenticationError
      else
        match ({ initClient auth_path tables environment with auth_keys := keys }).generate_encrypted_key w false with
        | (.error e, _, _) => .error e
        | (.ok ek, c2, _) =>
          if ek = "" then .error .authenticationError
          else .ok { c2 with encrypted_api_key := some ek }
  else .error (.fileNotFound auth_path)

/-- A Python value as far as the `origin_address` setter's `isinstance(·,
str)` check can see it: a string, or any non-string value. -/
inductive PyVal
  | str (s : String)
  | intV (n : Int)
  | boolV (b : Bool)
  | noneV
deriving DecidableEq, Repr

/-- Whether a `PyVal` is a string (`isinstance(ip_address, str)`). -/
def PyVal.isStr : PyVal → Bool
  | .str _ => true
  | _ => false

/-- The `origin_address` property getter. -/
def Mpesa.origin_address (c : Mpesa) : String := c.origin_ip

/-- The `origin_address` property setter: stores a string, raises
`TypeError("Address must be string")` on anything else (leaving the stored
address unchanged, since the assignment is never reached). -/
def Mpesa.set_origin_address (c : Mpesa) (v : PyVal) : Mpesa × Option MpesaErr :=
  match v with
  | .str s => ({ c with origin_ip := s }, none)
  | _ => (c, some (.typeError "Address must be string"))

/-! ## Concrete fixtures used in witnesses and counterexamples -/

/-- A concrete sandbox URL table. -/
def sandboxUrls : URLSet :=
  { session_id := "https://sandbox.host/getSession/",
    single_stage_c2b := "https://sandbox.host/c2bPayment/",
    single_stage_b2c := "https://sandbox.host/b2cPayment/",
    single_stage_b2b := "https://sandbox.host/b2bPayment/",
    payment_reversal := "https://sandbox.host/reversal/",
    transaction_status := "https://sandbox.host/queryTransactionStatus/" }

/-- A concrete production URL table, distinct from the sandbox one. -/
def productionUrls : URLSet :=
  { session_id := "https://live.host/getSession/",
    single_stage_c2b := "https://live.host/c2bPayment/",
    single_stage_b2c := "https://live.host/b2cPayment/",
    single_stage_b2b := "https://live.host/b2bPayment/",
    payment_reversal := "https://live.host/reversal/",
    transaction_status := "https://live.host/queryTransactionStatus/" }

/-- A concrete `service_urls` table. -/
def tablesEx : ServiceUrls := { production := productionUrls, sandbox := sandboxUrls }

/-- A concrete well-formed key store content. -/
def goodKeys : List (String × String) := [("public_key", "PUB"), ("api_key", "API")]

/-- A concrete always-succeeding encryption oracle. -/
def encryptEx : String → String → Option String :=
  fun pub raw => some ("E:" ++ pub ++ ":" ++ raw)

/-- A concrete successful session-endpoint response body. -/
def sessionRespEx : List (String × String) :=
  [("output_SessionID", "sess1"), ("output_ResponseCode", "INS-0"),
   ("output_ResponseDesc", "ok")]

/-- A concrete transaction-endpoint response body. -/
def txRespEx : List (String × String) :=
  [("output_ResponseCode", "INS-0"), ("output_ResponseDesc", "ok"),
   ("output_TransactionID", "tid1")]

/-- A concrete HTTP oracle: GETs get a good session response, POSTs a
transaction response. -/
def httpEx : HttpReq → HttpResp := fun r =>
  match r.method with
  | .get => .json sessionRespEx
  | .post => .json txRespEx

/-- A world where `keys.json` exists in the cwd with good content and every
external call succeeds. -/
def wGood : World :=
  { listing := ["keys.json"],
    fs := fun p => if p = "keys.json" then .content goodKeys else .missing,
    encrypt := encryptEx, http := httpEx }

/-- A world with an empty cwd and no readable files: the key store cannot be
loaded. -/
def wMissing : World :=
  { listing := [], fs := fun _ => .missing, encrypt := encryptEx, http := httpEx }

/-- A session response carrying `output_ResponseCode = "INS-989"` together
with a present `output_SessionID`. -/
def sessionResp989 : List (String × String) :=
  [("output_SessionID", "sessX"), ("output_ResponseCode", "INS-989"),
   ("output_ResponseDesc", "session failed")]

/-- Like `wGood` but the session endpoint rejects with `INS-989`. -/
def wBad989 : World :=
  { listing := ["keys.json"],
    fs := fun p => if p = "keys.json" then .content goodKeys else .missing,
    encrypt := encryptEx, http := fun _ => .json sessionResp989 }

/-- A world where a readable good key store sits at the relative path
`config/keys.json` inside a `config` directory of the cwd; the cwd listing
holds only the entry name `config`. -/
def wNested : World :=
  { listing := ["config"],
    fs := fun p => if p = "config/keys.json" then .content goodKeys else .missing,
    encrypt := encryptEx, http := httpEx }

/-- The client `mkMpesa` builds in `wGood` with defaults. -/
def cGood : Mpesa :=
  { auth_path := "keys.json", auth_keys := goodKeys,
    encrypted_api_key := some "E:PUB:API", origin_ip := "*", urls := sandboxUrls }

example : mkMpesa wGood tablesEx "keys.json" "testing" = .ok cGood := rfl

/-! ## Frame and trace lemmas shared by the claims -/

/-- `get_session_id` never assigns to `self`. -/
theorem get_session_id_state (c : Mpesa) (w : World) :
    (c.get_session_id w).2.1 = c := by
  unfold Mpesa.get_session_id
  repeat' first | rfl | split

/-- `__generate_encrypted_key` never assigns to `self`. -/
theorem generate_encrypted_key_state (c : Mpesa) (w : World) (s : Bool) :
    (c.generate_encrypted_key w s).2.1 = c := by
  have h := get_session_id_state c w
  unfold Mpesa.generate_encrypted_key
  repeat' first | rfl | split
  all_goals simp_all

/-- `default_headers` never assigns to `self`. -/
theorem default_headers_state (c : Mpesa) (w : World) (ak : Option String) :
    (c.default_headers w ak).2.1 = c := by
  have h := generate_encrypted_key_state c w true
  unfold Mpesa.default_headers
  repeat' first | rfl | split
  all_goals simp_all

/-- A dispatcher never assigns to `self`. -/
theorem dispatchPost_state (c : Mpesa) (w : World) (required : List String)
    (url : String) (q : List (String × String)) :
    (c.dispatchPost w required url q).2.1 = c := by
  have h := default_headers_state c w (some "")
  unfold Mpesa.dispatchPost
  repeat' first | rfl | split
  all_goals simp_all

/-- Every request `get_session_id` issues is the session GET built from the
stored (truthy) encrypted API key. -/
theorem get_session_id_trace (c : Mpesa) (w : World) :
    (c.get_session_id w).2.2 = [] ∨
      ∃ k, c.encrypted_api_key = some k ∧ k ≠ "" ∧
        (c.get_session_id w).2.2 = [sessionReq c k] := by
  unfold Mpesa.get_session_id
  cases c.encrypted_api_key with
  | none => left; rfl
  | some k =>
    by_cases h0 : k = ""
    · left; simp [h0]
    · right
      refine ⟨k, rfl, h0, ?_⟩
      simp only [if_neg h0]
      repeat' first | rfl | split

/-- Every request `__generate_encrypted_key` issues is the session GET built
from the stored (truthy) encrypted API key. -/
theorem generate_encrypted_key_trace (c : Mpesa) (w : World) (s : Bool) :
    (c.generate_encrypted_key w s).2.2 = [] ∨
      ∃ k, c.encrypted_api_key = some k ∧ k ≠ "" ∧
        (c.generate_encrypted_key w s).2.2 = [sessionReq c k] := by
  have h := get_session_id_trace c w
  unfold Mpesa.generate_encrypted_key
  repeat' first | (left; rfl) | split
  all_goals simp_all

/-- Every request `default_headers` issues is the session GET built from the
stored (truthy) encrypted API key. -/
theorem default_headers_trace (c : Mpesa) (w : World) (ak : Option String) :
    (c.default_headers w ak).2.2 = [] ∨
      ∃ k, c.encrypted_api_key = some k ∧ k ≠ "" ∧
        (c.default_headers w ak).2.2 = [sessionReq c k] := by
  have h := generate_encrypted_key_trace c w true
  unfold Mpesa.default_headers
  repeat' first | (left; rfl) | split
  all_goals simp_all

/-- Characterize a successful `__generate_encrypted_key(session=False)`:
both key-store fields were present, the encryption pipeline succeeded, no
state change, no HTTP request. -/
theorem generate_false_ok_inv (cx : Mpesa) (w : World) (ek : String) (c1 : Mpesa)
    (t : List HttpReq)
    (h : cx.generate_encrypted_key w false = (.ok ek, c1, t)) :
    ∃ pub raw, cx.auth_keys.lookup "public_key" = some pub ∧
      cx.auth_keys.lookup "api_key" = some raw ∧
      w.encrypt pub raw = some ek ∧ c1 = cx ∧ t = [] := by
  unfold Mpesa.generate_encrypted_key at h
  repeat' split at h
  all_goals simp_all

/-- Inversion of a successful construction: the locator was in the cwd
listing, the key store parsed to the client's non-empty `auth_keys`, the
defaults were stored, the URL table was resolved from the environment, and
the API key was encrypted once into a non-empty stored key. -/
theorem mkMpesa_ok_inv (w : World) (tables : ServiceUrls) (p env : String)
    (c : Mpesa) (hc : mkMpesa w tables p env = .ok c) :
    p ∈ w.listing ∧ w.fs p = .content c.auth_keys ∧ c.auth_keys ≠ [] ∧
      c.auth_path = p ∧ c.origin_ip = "*" ∧ c.urls = resolveUrls tables env ∧
      ∃ pub raw ek, c.auth_keys.lookup "public_key" = some pub ∧
        c.auth_keys.lookup "api_key" = some raw ∧
        w.encrypt pub raw = some ek ∧ ek ≠ "" ∧
        c.encrypted_api_key = some ek := by
  by_cases hm : p ∈ w.listing
  case neg => simp [mkMpesa, hm] at hc
  rcases hfsv : w.fs p with _ | _ | d
  · simp [mkMpesa, load_keys, hm, hfsv] at hc
  · simp [mkMpesa, load_keys, hm, hfsv] at hc
  · by_cases hd : d = []
    · simp [mkMpesa, load_keys, hm, hfsv, hd] at hc
    · rcases hgenv : ({ initClient p tables env with auth_keys := d }).generate_encrypted_key w false with ⟨r, c2, t⟩
      cases r with
      | error e => simp [mkMpesa, load_keys, hm, hfsv, hd, hgenv] at hc
      | ok ek =>
        by_cases he : ek = ""
        · simp [mkMpesa, load_keys, hm, hfsv, hd, hgenv, he] at hc
        · simp [mkMpesa, load_keys, hm, hfsv, hd, hgenv, he] at hc
          subst hc
          obtain ⟨pub, raw, hpub, hraw, henc, hc2, ht⟩ :=
            generate_false_ok_inv _ w ek c2 t hgenv
          subst hc2
          exact ⟨hm, rfl, hd, rfl, rfl, rfl, pub, raw, ek, hpub, hraw,
            henc, he, rfl⟩

/-- `verify_query` succeeds exactly when no required field is missing. -/
theorem verify_query_ok (q : List (String × String)) (required : List String)
    (h : missingOf required q = []) : Mpesa.verify_query q required = .ok true := by
  unfold Mpesa.verify_query
  simp [h]

/-- `verify_query` raises the `KeyError` carrying the missing-field set when
one is missing. -/
theorem verify_query_error (q : List (String × String)) (required : List String)
    (h : missingOf required q ≠ []) :
    Mpesa.verify_query q required = .error (.missingFields (missingOf required q)) := by
  unfold Mpesa.verify_query
  simp [h]

/-- A dispatcher with a missing required field raises before doing anything
else. -/
theorem dispatchPost_missing (c : Mpesa) (w : World) (required : List String)
    (url : String) (q : List (String × String))
    (h : missingOf required q ≠ []) :
    c.dispatchPost w required url q =
      (.error (.missingFields (missingOf required q)), c, []) := by
  unfold Mpesa.dispatchPost
  rw [verify_query_error q required h]

/-- `runTx` unfolds to the shared dispatcher at the kind's required fields
and endpoint. -/
theorem runTx_dispatch (c : Mpesa) (w : World) (kind : TxKind)
    (q : List (String × String)) :
    runTx c w kind q =
      c.dispatchPost w (requiredFields kind) (endpointOf c kind) q := by
  cases kind <;> rfl

/-- `default_headers` only ever issues GET requests. -/
theorem default_headers_trace_no_post (c : Mpesa) (w : World) (ak : Option String) :
    ∀ r ∈ (c.default_headers w ak).2.2, r.method = .get := by
  rcases default_headers_trace c w ak with h | ⟨k, _, _, h⟩ <;> rw [h] <;>
    intro r hr
  · cases hr
  · rw [List.mem_singleton] at hr
    subst hr
    rfl

/-- A successful dispatch: validation passes, the session-authenticated
headers come back, and the single POST's parsed body is returned. -/
theorem dispatchPost_ok (c : Mpesa) (w : World) (required : List String)
    (url : String) (q hs : List (String × String)) (c1 : Mpesa)
    (t : List HttpReq) (body : List (String × String))
    (hv : missingOf required q = [])
    (hh : c.default_headers w (some "") = (.ok hs, c1, t))
    (hr : w.http (postReq url hs q) = .json body) :
    c.dispatchPost w required url q = (.ok body, c1, t ++ [postReq url hs q]) := by
  unfold Mpesa.dispatchPost
  rw [verify_query_ok q required hv]
  simp [hh, hr]

/-! ## Claim theorems -/

/-- The production-environment client `mkMpesa` builds in `wGood`. -/
def cGoodProd : Mpesa := { cGood with urls := productionUrls }

/-- C1 counterexample: in a world where the key store cannot be loaded (the
cwd is empty and every file read fails), construction fails with
`FileNotFoundError`, not `AuthenticationError`, refuting the claim that a
credential-loading failure surfaces as `AuthenticationError`. -/
theorem construction_missing_store_error :
    mkMpesa wMissing tablesEx "keys.json" "testing" =
        .error (.fileNotFound "keys.json")
      ∧ MpesaErr.fileNotFound "keys.json" ≠ MpesaErr.authenticationError :=
  ⟨rfl, by decide⟩

/-- C1 (amended): construction always fails fast when the credentials cannot
be loaded or the initial encryption fails, but the error kind depends on the
cause: `FileNotFoundError` when the locator is not in the cwd listing,
`LoadingKeyError` when the store content cannot be parsed,
`AuthenticationError` when the loaded credentials are empty or the initial
encryption of the API key fails; and every successfully constructed client
is fully authenticated: non-empty credentials and a non-empty stored
encrypted API key. -/
theorem construction_fail_fast (w : World) (tables : ServiceUrls)
    (p env : String) :
    (p ∉ w.listing → mkMpesa w tables p env = .error (.fileNotFound p))
    ∧ (p ∈ w.listing → w.fs p = .unreadable →
        mkMpesa w tables p env = .error .loadingKeyError)
    ∧ (p ∈ w.listing → w.fs p = .content [] →
        mkMpesa w tables p env = .error .authenticationError)
    ∧ (∀ d pub raw, p ∈ w.listing → w.fs p = .content d → d ≠ [] →
        d.lookup "public_key" = some pub → d.lookup "api_key" = some raw →
        w.encrypt pub raw = none →
        mkMpesa w tables p env = .error .authenticationError)
    ∧ (∀ c, mkMpesa w tables p env = .ok c →
        c.auth_keys ≠ [] ∧ w.fs p = .content c.auth_keys ∧
        ∃ ek, c.encrypted_api_key = some ek ∧ ek ≠ "") := by
  refine ⟨?_, ?_, ?_, ?_, ?_⟩
  · intro h
    simp [mkMpesa, h]
  · intro h1 h2
    simp [mkMpesa, load_keys, h1, h2]
  · intro h1 h2
    simp [mkMpesa, load_keys, h1, h2]
  · intro d pub raw h1 h2 hd hpub hraw henc
    simp [mkMpesa, load_keys, Mpesa.generate_encrypted_key, initClient,
      h1, h2, hd, hpub, hraw, henc]
  · intro c hc
    obtain ⟨_, hfs, hne, _, _, _, pub, raw, ek, _, _, _, hek, hstore⟩ :=
      mkMpesa_ok_inv w tables p env c hc
    exact ⟨hne, hfs, ek, hstore, hek⟩

/-- C1 witness: the amended theorem applied to a world without the key store
(first conjunct) and to a fully successful construction (last conjunct). -/
theorem construction_fail_fast_witness :
    mkMpesa wMissing tablesEx "keys.json" "production" =
        .error (.fileNotFound "keys.json")
      ∧ (cGood.auth_keys ≠ [] ∧ wGood.fs "keys.json" = .content cGood.auth_keys ∧
          ∃ ek, cGood.encrypted_api_key = some ek ∧ ek ≠ "") := by
  constructor
  · exact (construction_fail_fast wMissing tablesEx "keys.json" "production").1
      (by decide)
  · exact (construction_fail_fast wGood tablesEx "keys.json" "testing").2.2.2.2
      cGood rfl

/-- C2: a transaction query missing at least one required field makes the
dispatcher of any kind fail with the `KeyError` (the spec's
`MissingFieldsError`) carrying exactly the set difference of the required
fields and the query keys, with no HTTP request issued; the carried list
holds exactly the missing fields. -/
theorem dispatch_missing_fields (c : Mpesa) (w : World) (kind : TxKind)
    (q : List (String × String))
    (hmiss : ∃ f, f ∈ requiredFields kind ∧ q.lookup f = none) :
    runTx c w kind q =
        (.error (.missingFields (missingOf (requiredFields kind) q)), c, [])
      ∧ ∀ f, (f ∈ missingOf (requiredFields kind) q ↔
          (f ∈ requiredFields kind ∧ q.lookup f = none)) := by
  constructor
  · rw [runTx_dispatch]
    apply dispatchPost_missing
    rcases hmiss with ⟨f, hf, hq⟩
    intro h0
    have hfm : f ∈ missingOf (requiredFields kind) q := by
      simp [missingOf, List.mem_filter, hf, hq]
    rw [h0] at hfm
    cases hfm
  · intro f
    simp [missingOf, List.mem_filter, Option.isNone_iff_eq_none]

/-- C2 witness: a status query holding only `input_Country` is rejected with
the three remaining required fields and no request. -/
theorem dispatch_missing_fields_witness :
    runTx cGood wGood .statusQuery [("input_Country", "TZ")] =
        (.error (.missingFields (missingOf (requiredFields .statusQuery)
          [("input_Country", "TZ")])), cGood, [])
      ∧ missingOf (requiredFields .statusQuery) [("input_Country", "TZ")] =
          ["input_QueryReference", "input_ServiceProviderCode",
           "input_ThirdPartyConversationID"] :=
  ⟨(dispatch_missing_fields cGood wGood .statusQuery [("input_Country", "TZ")]
      ⟨"input_QueryReference", by decide, by decide⟩).1,
   by decide⟩

/-- The spec's required-field table (section 4.5), without the `input_`
prefix the spec factors out. -/
def specRequiredTable : TxKind → List String
  | .c2b => ["Amount", "Country", "Currency", "CustomerMSISDN",
      "ServiceProviderCode", "ThirdPartyConversationID",
      "TransactionReference", "PurchasedItemsDesc"]
  | .b2c => ["Amount", "Country", "Currency", "CustomerMSISDN",
      "ServiceProviderCode", "ThirdPartyConversationID",
      "TransactionReference", "PaymentItemsDesc"]
  | .b2b => ["Amount", "Country", "Currency", "PrimaryPartyCode",
      "ReceiverPartyCode", "ThirdPartyConversationID",
      "TransactionReference", "PurchasedItemsDesc"]
  | .reversal => ["Country", "ReversalAmount", "ServiceProviderCode",
      "ThirdPartyConversationID", "TransactionID"]
  | .statusQuery => ["Country", "QueryReference", "ServiceProviderCode",
      "ThirdPartyConversationID"]

/-- C3: for each of the five kinds, the required-field list the dispatcher
checks is exactly the spec's table entry with the literal `input_` prefix on
every name (equal even as lists, hence as sets). -/
theorem required_fields_match_spec_table (kind : TxKind) :
    requiredFields kind = (specRequiredTable kind).map (fun f => "input_" ++ f)
      ∧ (requiredFields kind).toFinset =
          ((specRequiredTable kind).map (fun f => "input_" ++ f)).toFinset := by
  have h : requiredFields kind =
      (specRequiredTable kind).map (fun f => "input_" ++ f) := by
    cases kind <;> decide
  exact ⟨h, by rw [h]⟩

/-- C8: the URL set is the production table exactly when the environment
string is `"production"` and the sandbox table for any other value, and no
post-construction operation (the `origin_address` setter, any dispatcher)
changes it. -/
theorem endpoint_resolution (w : World) (tables : ServiceUrls) (p env : String) :
    (∀ c, mkMpesa w tables p env = .ok c →
      (env = "production" → c.urls = tables.production) ∧
      (env ≠ "production" → c.urls = tables.sandbox))
    ∧ (∀ (c : Mpesa) (v : PyVal), ((c.set_origin_address v).1).urls = c.urls)
    ∧ (∀ (c : Mpesa) (kind : TxKind) (q : List (String × String)),
        (runTx c w kind q).2.1.urls = c.urls) := by
  refine ⟨?_, ?_, ?_⟩
  · intro c hc
    obtain ⟨_, _, _, _, _, hurls, _⟩ := mkMpesa_ok_inv w tables p env c hc
    constructor
    · intro he
      rw [hurls, resolveUrls, if_pos he]
    · intro he
      rw [hurls, resolveUrls, if_neg he]
  · intro c v
    cases v <;> rfl
  · intro c kind q
    rw [runTx_dispatch, dispatchPost_state]

/-- C8 witness: the same world and key store yield the production table
under `environment = "production"` and the sandbox table under
`environment = "testing"`. -/
theorem endpoint_resolution_witness :
    cGoodProd.urls = tablesEx.production ∧ cGood.urls = tablesEx.sandbox :=
  ⟨((endpoint_resolution wGood tablesEx "keys.json" "production").1
      cGoodProd rfl).1 rfl,
   ((endpoint_resolution wGood tablesEx "keys.json" "testing").1
      cGood rfl).2 (by decide)⟩

/-- C10: construction tests key-store existence by membership of the
locator string in the cwd listing, so any locator not listed — in
particular one containing a directory separator, which `os.listdir()`
entries never contain — raises `FileNotFoundError` even when a readable
well-formed key store exists at that relative path. -/
theorem keystore_existence_by_listing (w : World) (tables : ServiceUrls)
    (p env : String) (d : List (String × String)) :
    (p ∉ w.listing → mkMpesa w tables p env = .error (.fileNotFound p))
    ∧ ('/' ∈ p.data → (∀ s ∈ w.listing, '/' ∉ s.data) →
        w.fs p = .content d →
        mkMpesa w tables p env = .error (.fileNotFound p)) := by
  constructor
  · intro h
    simp [mkMpesa, h]
  · intro hsep hlist hfile
    have hp : p ∉ w.listing := fun hmem => hlist p hmem hsep
    simp [mkMpesa, hp]

/-- C10 witness: with `config` the only cwd entry and a good key store
readable at `config/keys.json`, construction with that locator still raises
`FileNotFoundError`. -/
theorem keystore_existence_by_listing_witness :
    mkMpesa wNested tablesEx "config/keys.json" "testing" =
      .error (.fileNotFound "config/keys.json") :=
  (keystore_existence_by_listing wNested tablesEx "config/keys.json" "testing"
    goodKeys).2 (by decide) (by decide) (by decide)

/-- Looking up `Origin` in the built header mapping yields the origin
address. -/
theorem headersFor_lookup_origin (o k : String) :
    (headersFor o k).lookup "Origin" = some o := rfl

/-- Looking up `Authorization` in the built header mapping yields the bearer
auth key. -/
theorem headersFor_lookup_auth (o k : String) :
    (headersFor o k).lookup "Authorization" = some ("Bearer " ++ k) := rfl

/-- A successful `default_headers` leaves the state unchanged and returns
the four-header mapping built from the client's origin address. -/
theorem default_headers_ok_shape (c : Mpesa) (w : World) (ak : Option String)
    (hs : List (String × String)) (c1 : Mpesa) (t : List HttpReq)
    (h : c.default_headers w ak = (.ok hs, c1, t)) :
    c1 = c ∧ ∃ key, hs = headersFor c.origin_ip key := by
  have hst := default_headers_state c w ak
  rw [h] at hst
  simp only at hst
  refine ⟨hst, ?_⟩
  unfold Mpesa.default_headers at h
  by_cases hT : authKeyTruthy ak
  · rw [if_pos hT] at h
    simp only [Prod.mk.injEq, Except.ok.injEq] at h
    exact ⟨ak.getD "", h.1.symm⟩
  · rw [if_neg hT] at h
    have hgst := generate_encrypted_key_state c w true
    rcases hg : c.generate_encrypted_key w true with ⟨r, c2, t2⟩
    rw [hg] at hgst h
    simp only at hgst
    cases r with
    | ok key =>
      simp at h
      exact ⟨key, by rw [← h.1, hgst]⟩
    | error e => simp at h

/-- C7: a constructed client's origin address defaults to `"*"`; setting it
to a non-string raises `TypeError` (the spec's `InvalidArgument`) and leaves
the state unchanged; setting it to a string stores it with no error, and
every header mapping subsequently built by `default_headers` carries that
string as its `Origin` field. -/
theorem origin_address_spec (w : World) (tables : ServiceUrls) (p env : String) :
    (∀ c, mkMpesa w tables p env = .ok c → c.origin_address = "*")
    ∧ (∀ (c : Mpesa) (v : PyVal), v.isStr = false →
        c.set_origin_address v = (c, some (.typeError "Address must be string")))
    ∧ (∀ (c : Mpesa) (s : String),
        (c.set_origin_address (.str s)).1 = { c with origin_ip := s } ∧
        (c.set_origin_address (.str s)).2 = none ∧
        ∀ (ak : Option String) (hs : List (String × String)) (c1 : Mpesa)
          (t : List HttpReq),
          ((c.set_origin_address (.str s)).1).default_headers w ak =
            (.ok hs, c1, t) →
          hs.lookup "Origin" = some s) := by
  refine ⟨?_, ?_, ?_⟩
  · intro c hc
    obtain ⟨_, _, _, _, ho, _⟩ := mkMpesa_ok_inv w tables p env c hc
    exact ho
  · intro c v hv
    cases v with
    | str s => cases hv
    | intV n => rfl
    | boolV b => rfl
    | noneV => rfl
  · intro c s
    refine ⟨rfl, rfl, ?_⟩
    intro ak hs c1 t h
    obtain ⟨-, key, hkey⟩ := default_headers_ok_shape _ w ak hs c1 t h
    rw [hkey]
    exact headersFor_lookup_origin s key

/-- C7 witness: the constructed client's default origin, a rejected integer
assignment, an accepted string assignment, and a header build carrying the
new origin. -/
theorem origin_address_spec_witness :
    cGood.origin_address = "*"
    ∧ cGood.set_origin_address (.intV 5) =
        (cGood, some (.typeError "Address must be string"))
    ∧ (cGood.set_origin_address (.str "https://shop.example")).1 =
        { cGood with origin_ip := "https://shop.example" }
    ∧ (headersFor "https://shop.example" "KEY").lookup "Origin" =
        some "https://shop.example" := by
  obtain ⟨h1, h2, h3⟩ := origin_address_spec wGood tablesEx "keys.json" "testing"
  refine ⟨h1 cGood rfl, h2 cGood (.intV 5) rfl,
    (h3 cGood "https://shop.example").1, ?_⟩
  exact (h3 cGood "https://shop.example").2.2 (some "KEY")
    (headersFor "https://shop.example" "KEY")
    { cGood with origin_ip := "https://shop.example" } [] rfl

/-- C6: `default_headers` with a non-empty supplied auth key returns exactly
the four headers built from it, with no state change and no HTTP request;
with an absent or empty auth key it first obtains a fresh session id,
encrypts it, and returns exactly the four headers built from the encrypted
session id. -/
theorem default_headers_spec (c : Mpesa) (w : World) :
    (∀ k : String, k ≠ "" →
      c.default_headers w (some k) =
        (.ok [("Content-Type", "application/json"),
              ("Authorization", "Bearer " ++ k),
              ("Host", "openapi.m-pesa.com"),
              ("Origin", c.origin_address)], c, []))
    ∧ (∀ ak : Option String, (ak = none ∨ ak = some "") →
        ∀ (sid : String) (c1 : Mpesa) (t : List HttpReq) (pub raw ek : String),
          c.get_session_id w = (.ok sid, c1, t) →
          c.auth_keys.lookup "public_key" = some pub →
          c.auth_keys.lookup "api_key" = some raw →
          w.encrypt pub sid = some ek →
          c.default_headers w ak =
            (.ok [("Content-Type", "application/json"),
                  ("Authorization", "Bearer " ++ ek),
                  ("Host", "openapi.m-pesa.com"),
                  ("Origin", c.origin_address)], c, t)) := by
  constructor
  · intro k hk
    simp [Mpesa.default_headers, authKeyTruthy, hk, headersFor,
      Mpesa.origin_address]
  · intro ak hak sid c1 t pub raw ek hsid hpub hraw henc
    have hst := get_session_id_state c w
    rw [hsid] at hst
    simp only at hst
    subst hst
    rcases hak with rfl | rfl <;>
      simp [Mpesa.default_headers, authKeyTruthy, Mpesa.generate_encrypted_key,
        hpub, hraw, hsid, henc, headersFor, Mpesa.origin_address]

/-- C6 witness: a supplied key is used verbatim with no request; an empty
key triggers the session fetch and the headers carry the encrypted session
id. -/
theorem default_headers_spec_witness :
    cGood.default_headers wGood (some "KEY") =
        (.ok [("Content-Type", "application/json"),
              ("Authorization", "Bearer KEY"),
              ("Host", "openapi.m-pesa.com"), ("Origin", "*")], cGood, [])
    ∧ cGood.default_headers wGood (some "") =
        (.ok [("Content-Type", "application/json"),
              ("Authorization", "Bearer E:PUB:sess1"),
              ("Host", "openapi.m-pesa.com"), ("Origin", "*")], cGood,
          [sessionReq cGood "E:PUB:API"]) := by
  constructor
  · exact (default_headers_spec cGood wGood).1 "KEY" (by decide)
  · exact (default_headers_spec cGood wGood).2 (some "") (Or.inr rfl) "sess1"
      cGood [sessionReq cGood "E:PUB:API"] "PUB" "API" "E:PUB:sess1"
      rfl rfl rfl rfl

/-- C5: with a truthy stored encrypted API key, `get_session_id` fails with
`AuthenticationError` when the session response carries
`output_ResponseCode = "INS-989"` (even with a session id present), on a
network failure, on a JSON-parse failure, and on any missing response
field; otherwise it returns the `output_SessionID` value. -/
theorem get_session_id_spec (c : Mpesa) (w : World) (k : String)
    (hk : c.encrypted_api_key = some k) (hne : k ≠ "") :
    (∀ body, w.http (sessionReq c k) = .json body →
        body.lookup "output_ResponseCode" = some "INS-989" →
        c.get_session_id w = (.error .authenticationError, c, [sessionReq c k]))
    ∧ (w.http (sessionReq c k) = .netFail →
        c.get_session_id w = (.error .authenticationError, c, [sessionReq c k]))
    ∧ (w.http (sessionReq c k) = .parseFail →
        c.get_session_id w = (.error .authenticationError, c, [sessionReq c k]))
    ∧ (∀ body, w.http (sessionReq c k) = .json body →
        (body.lookup "output_SessionID" = none ∨
          body.lookup "output_ResponseCode" = none ∨
          body.lookup "output_ResponseDesc" = none) →
        c.get_session_id w = (.error .authenticationError, c, [sessionReq c k]))
    ∧ (∀ body sid code desc, w.http (sessionReq c k) = .json body →
        body.lookup "output_SessionID" = some sid →
        body.lookup "output_ResponseCode" = some code →
        body.lookup "output_ResponseDesc" = some desc →
        code ≠ "INS-989" →
        c.get_session_id w = (.ok sid, c, [sessionReq c k])) := by
  refine ⟨?_, ?_, ?_, ?_, ?_⟩
  · intro body hb h989
    unfold Mpesa.get_session_id
    repeat' split
    all_goals simp_all
  · intro hn
    unfold Mpesa.get_session_id
    repeat' split
    all_goals simp_all
  · intro hp
    unfold Mpesa.get_session_id
    repeat' split
    all_goals simp_all
  · intro body hb hm
    unfold Mpesa.get_session_id
    repeat' split
    all_goals simp_all [-List.lookup_eq_none_iff]
  · intro body sid code desc hb hsid hcode hdesc h989
    unfold Mpesa.get_session_id
    repeat' split
    all_goals simp_all [-List.lookup_eq_none_iff]

/-- C5 witness: an `INS-989` response with a session id present still fails
with `AuthenticationError`; a clean response returns its session id. -/
theorem get_session_id_spec_witness :
    cGood.get_session_id wBad989 =
        (.error .authenticationError, cGood, [sessionReq cGood "E:PUB:API"])
    ∧ cGood.get_session_id wGood =
        (.ok "sess1", cGood, [sessionReq cGood "E:PUB:API"]) :=
  ⟨(get_session_id_spec cGood wBad989 "E:PUB:API" rfl (by decide)).1
      sessionResp989 rfl rfl,
   (get_session_id_spec cGood wGood "E:PUB:API" rfl (by decide)).2.2.2.2
      sessionRespEx "sess1" "INS-0" "ok" rfl rfl rfl rfl (by decide)⟩

/-- Every GET a dispatcher issues is the session GET built from the stored
encrypted API key. -/
theorem dispatchPost_trace_get (c : Mpesa) (w : World) (required : List String)
    (url : String) (q : List (String × String)) (k : String)
    (hk : c.encrypted_api_key = some k) (r : HttpReq)
    (hr : r ∈ (c.dispatchPost w required url q).2.2) (hget : r.method = .get) :
    r = sessionReq c k := by
  rcases default_headers_trace c w (some "") with htr | ⟨k2, hk2, hkne2, htr⟩ <;>
    unfold Mpesa.dispatchPost at hr <;>
    repeat' split at hr
  all_goals simp_all [postReq]
  all_goals rcases hr with rfl | rfl
  all_goals simp_all

/-- C9: dispatching any transaction kind leaves the whole client state
unchanged (so `auth_path`, `auth_keys`, the stored encrypted API key, the
origin address and the URL set are all preserved), and the encrypted API
key authenticating any session GET issued during the dispatch is the one
computed once at construction from the loaded credentials, not a
recomputation. -/
theorem dispatch_frame (w : World) (tables : ServiceUrls) (p env : String)
    (c : Mpesa) (hc : mkMpesa w tables p env = .ok c) (kind : TxKind)
    (q : List (String × String)) :
    (runTx c w kind q).2.1 = c
    ∧ ∃ pub raw ek, c.auth_keys.lookup "public_key" = some pub ∧
        c.auth_keys.lookup "api_key" = some raw ∧
        w.encrypt pub raw = some ek ∧ c.encrypted_api_key = some ek ∧
        ∀ r ∈ (runTx c w kind q).2.2, r.method = .get →
          r = sessionReq c ek ∧
          r.headers.lookup "Authorization" = some ("Bearer " ++ ek) := by
  obtain ⟨_, _, _, _, _, _, pub, raw, ek, hpub, hraw, henc, hne, hstore⟩ :=
    mkMpesa_ok_inv w tables p env c hc
  constructor
  · rw [runTx_dispatch, dispatchPost_state]
  · refine ⟨pub, raw, ek, hpub, hraw, henc, hstore, ?_⟩
    intro r hrr hget
    rw [runTx_dispatch] at hrr
    have hreq := dispatchPost_trace_get c w (requiredFields kind)
      (endpointOf c kind) q ek hstore r hrr hget
    refine ⟨hreq, ?_⟩
    rw [hreq]
    exact headersFor_lookup_auth c.origin_ip ek

/-- C9 witness: a customer-to-business dispatch in the good world leaves the
constructed client unchanged, and its one GET is the session request
authenticated with the construction-time encrypted API key. -/
theorem dispatch_frame_witness :
    (runTx cGood wGood .c2b []).2.1 = cGood
    ∧ (sessionReq cGood "E:PUB:API").headers.lookup "Authorization" =
        some "Bearer E:PUB:API" := by
  obtain ⟨h1, pub, raw, ek, hpub, hraw, henc, hstore, h2⟩ :=
    dispatch_frame wGood tablesEx "keys.json" "testing" cGood rfl .c2b []
  refine ⟨h1, ?_⟩
  have hpubv : pub = "PUB" := by
    have : some pub = some "PUB" := by rw [← hpub]; decide
    injection this
  have hrawv : raw = "API" := by
    have : some raw = some "API" := by rw [← hraw]; decide
    injection this
  have hekv : ek = "E:PUB:API" := by
    subst hpubv
    subst hrawv
    have : some ek = some "E:PUB:API" := by rw [← henc]; decide
    injection this
  subst hekv
  exact headersFor_lookup_auth "*" "E:PUB:API"

/-- A concrete full customer-to-business query, with all eight required
fields and an extra one. -/
def qC2B : List (String × String) :=
  [("input_Amount", "10"), ("input_Country", "TZN"),
   ("input_Currency", "TZS"), ("input_CustomerMSISDN", "000000000001"),
   ("input_ServiceProviderCode", "000000"),
   ("input_ThirdPartyConversationID", "conv1"),
   ("input_TransactionReference", "T123"),
   ("input_PurchasedItemsDesc", "Shoes"), ("extra_Field", "1")]

/-- C4: a query holding every required field of a kind (extras allowed)
makes that kind's dispatcher return the POST response body parsed and
unchanged (whatever it is — no inspection of remote response codes), and
the request trace holds exactly one POST: to the kind's endpoint, carrying
the full query (extras included) as the JSON body. -/
theorem dispatch_success_single_post (c : Mpesa) (w : World) (kind : TxKind)
    (q hs : List (String × String)) (c1 : Mpesa) (t : List HttpReq)
    (body : List (String × String))
    (hq : ∀ f ∈ requiredFields kind, (q.lookup f).isSome = true)
    (hh : c.default_headers w (some "") = (.ok hs, c1, t))
    (hr : w.http (postReq (endpointOf c kind) hs q) = .json body) :
    runTx c w kind q = (.ok body, c1, t ++ [postReq (endpointOf c kind) hs q])
    ∧ (t ++ [postReq (endpointOf c kind) hs q]).filter
        (fun x => x.method == Method.post) = [postReq (endpointOf c kind) hs q] := by
  have hv : missingOf (requiredFields kind) q = [] := by
    unfold missingOf
    rw [List.filter_eq_nil_iff]
    intro a ha
    have := hq a ha
    simp_all
  constructor
  · rw [runTx_dispatch]
    exact dispatchPost_ok c w _ _ q hs c1 t body hv hh hr
  · rw [List.filter_append]
    have h1 : t.filter (fun x => x.method == Method.post) = [] := by
      rw [List.filter_eq_nil_iff]
      intro a ha
      have hga := default_headers_trace_no_post c w (some "") a
        (by rw [hh]; exact ha)
      simp [hga]
    rw [h1]
    simp [postReq]

/-- C4 witness: the full customer-to-business query in the good world
produces the session GET followed by exactly one POST to the sandbox C2B
endpoint with the query as body, and returns the endpoint's JSON body
verbatim. -/
theorem dispatch_success_single_post_witness :
    runTx cGood wGood .c2b qC2B =
      (.ok txRespEx, cGood,
        [sessionReq cGood "E:PUB:API",
         postReq (endpointOf cGood .c2b) (headersFor "*" "E:PUB:sess1") qC2B]) := by
  have h := (dispatch_success_single_post cGood wGood .c2b qC2B
    (headersFor "*" "E:PUB:sess1") cGood [sessionReq cGood "E:PUB:API"]
    txRespEx (by decide) rfl rfl).1
  simpa using h
